import Mathlib

/-!
Verification of the workflow-builder backend core (component validation and
enhanced workflow execution) against its natural-language specification.

The embedding models:
  * `validate_component` from `Backend/main.py` (the hardcoded per-type rules);
  * `simple_validate_component` from `Backend/simple_backend.py` (the
    registry-driven variant);
  * `execute_workflow_enhanced` from `Backend/main.py` (structural validation,
    context accumulation, generation, output formatting, history append);
  * `chunk_text` from `Backend/main.py`.

Modelling conventions: JSON numbers are modelled as exact rationals (the
claims never depend on binary floating-point rounding); strings are Lean
`String`s; Python dictionary configurations are structures of `Option` fields
(a `none` field is an absent key); Python truthiness of a string is
non-emptiness; ambient nondeterminism (fresh execution ids, wall-clock
timestamps) is factored out — the timestamp embedded in JSON output is an
explicit parameter. The `while` loop of `chunk_text` is modelled with explicit
fuel so that non-termination of the Python loop is visible as fuel exhaustion
at every fuel value.
-/

/-- Python truthiness of an optional string value: an absent key and the empty
string are falsy. -/
def truthyStr : Option String → Bool
  | none => false
  | some s => s ≠ ""

/-- Python truthiness of an optional list value: an absent key and the empty
list are falsy. -/
def truthyList : Option (List String) → Bool
  | none => false
  | some l => l ≠ []

/-- ASCII whitespace as stripped by Python `str.strip()` (space, tab, newline,
carriage return, vertical tab, form feed; non-ASCII whitespace is outside the
modelled character repertoire). -/
def pyIsSpace (c : Char) : Bool :=
  c = ' ' || c = '\t' || c = '\n' || c = '\r' || c = Char.ofNat 11 || c = Char.ofNat 12

/-- Python `str.strip()`: remove leading and trailing whitespace. -/
def py_strip (s : String) : String :=
  String.mk (((s.data.dropWhile pyIsSpace).reverse.dropWhile pyIsSpace).reverse)

/-- A component configuration (`node["data"]` / the `configuration` mapping):
each field models one key the backend reads; `none` models an absent key. -/
structure ComponentConfig where
  query : Option String := none
  source : Option String := none
  documents : Option (List String) := none
  url : Option String := none
  textContent : Option String := none
  chunkSize : Option ℚ := none
  model : Option String := none
  temperature : Option ℚ := none
  maxTokens : Option ℚ := none
  format : Option String := none
  destination : Option String := none
  email : Option String := none
  apiEndpoint : Option String := none
  deriving DecidableEq, Repr, Inhabited

/-- `ComponentValidationResponse` from `Backend/main.py`. -/
structure ComponentValidationResponse where
  is_valid : Bool
  errors : List String
  warnings : List String
  deriving DecidableEq, Repr

/-- `validate_component` from `Backend/main.py` (lines 810-868): hardcoded
per-type rules; types other than the four known kinds fall through every
branch and yield an empty error and warning list. -/
def validate_component (component_type : String) (config : ComponentConfig) :
    ComponentValidationResponse :=
  let ew : List String × List String :=
    if component_type = "userQuery" then
      if config.query = none ∨ py_strip (config.query.getD "") = "" then
        (["Query is required"], [])
      else if (config.query.getD "").length > 1000 then
        ([], ["Query is very long, consider shortening"])
      else ([], [])
    else if component_type = "knowledgeBase" then
      let sourceErrors : List String :=
        if ¬ truthyStr config.source then
          ["Knowledge source is required"]
        else if config.source = some "upload" ∧ ¬ truthyList config.documents then
          ["Documents are required for upload source"]
        else if config.source = some "url" ∧ ¬ truthyStr config.url then
          ["URL is required for URL source"]
        else if config.source = some "text" ∧ ¬ truthyStr config.textContent then
          ["Text content is required for text source"]
        else []
      let chunk_size := config.chunkSize.getD 1000
      let chunkWarnings : List String :=
        if chunk_size < 100 ∨ chunk_size > 4000 then
          ["Chunk size should be between 100-4000 characters"]
        else []
      (sourceErrors, chunkWarnings)
    else if component_type = "llmEngine" then
      let modelErrors : List String :=
        if ¬ truthyStr config.model then ["Model selection is required"] else []
      let temperature := config.temperature.getD (7/10)
      let tempErrors : List String :=
        if temperature < 0 ∨ temperature > 1 then
          ["Temperature must be between 0 and 1"]
        else []
      let max_tokens := config.maxTokens.getD 2048
      let tokenWarnings : List String :=
        if max_tokens < 1 ∨ max_tokens > 8192 then
          ["Max tokens should be between 1-8192"]
        else []
      (modelErrors ++ tempErrors, tokenWarnings)
    else if component_type = "output" then
      let formatErrors : List String :=
        if ¬ truthyStr config.format then ["Output format is required"] else []
      let destination := config.destination.getD "display"
      let destErrors : List String :=
        if destination = "email" ∧ ¬ truthyStr config.email then
          ["Email address is required for email destination"]
        else if destination = "api" ∧ ¬ truthyStr config.apiEndpoint then
          ["API endpoint is required for API destination"]
        else []
      (formatErrors ++ destErrors, [])
    else ([], [])
  { is_valid := ew.1.isEmpty, errors := ew.1, warnings := ew.2 }

/-- `ComponentValidationResponse` from `Backend/simple_backend.py` (it also
carries a `suggestions` list). -/
structure SimpleValidationResponse where
  is_valid : Bool
  errors : List String
  warnings : List String
  suggestions : List String
  deriving DecidableEq, Repr

/-- The `configSchema` keys of `COMPONENT_TYPES` in `Backend/simple_backend.py`
(lines 62-107); `none` for a type that is not a registry key. Note the registry
keys are all-lowercase. -/
def simple_config_schema_fields (t : String) : Option (List String) :=
  if t = "userquery" then some ["placeholder", "required"]
  else if t = "knowledgebase" then some ["sources", "searchMode"]
  else if t = "llmengine" then some ["model", "temperature"]
  else if t = "output" then some ["format", "includeMetadata"]
  else none

/-- `validate_component` from `Backend/simple_backend.py` (lines 130-162).
`configuration_keys` is the key set of the request's configuration mapping. -/
def simple_validate_component (component_type : String)
    (configuration_keys : List String) : SimpleValidationResponse :=
  match simple_config_schema_fields component_type with
  | none =>
    { is_valid := false
      errors := ["Unknown component type: " ++ component_type]
      warnings := []
      suggestions := [] }
  | some fields =>
    let warnings :=
      (fields.filter (fun f => ¬ configuration_keys.contains f)).map
        (fun f => "Missing configuration field: " ++ f)
    { is_valid := ([] : List String).isEmpty
      errors := []
      warnings := warnings
      suggestions := [] }

/-- A workflow graph node: `type` is `node.get("type")`, `data` is the raw
configuration mapping (`node.get("data", {})` supplies the empty default at
each use site). Display-only fields (id, position) are irrelevant to every
code path modelled here and are omitted. -/
structure WorkflowNode where
  type : Option String := none
  data : Option ComponentConfig := none
  deriving DecidableEq, Repr, Inhabited

/-- A workflow graph edge (source/target node ids; style is cosmetic). The
executor never reads edges. -/
structure WorkflowEdge where
  source : String := ""
  target : String := ""
  deriving DecidableEq, Repr, Inhabited

/-- A stored workflow as read by the executor. -/
structure Workflow where
  id : String := ""
  name : String := ""
  nodes : List WorkflowNode := []
  edges : List WorkflowEdge := []
  deriving DecidableEq, Repr, Inhabited

/-- The `components_used` sub-object of the execution result. -/
structure ComponentsUsed where
  user_query : Nat
  knowledge_bases : Nat
  llm_engines : Nat
  output : Nat
  deriving DecidableEq, Repr

/-- The `result` payload of a completed execution. -/
structure ExecutionResult where
  response : String
  format : String
  execution_time : String
  components_used : ComponentsUsed
  deriving DecidableEq, Repr

/-- The execution-status record returned by the enhanced executor (the fresh
`execution_id` is ambient nondeterminism and is factored out). -/
structure ExecutionStatus where
  status : String
  progress : Nat
  current_step : String
  result : Option ExecutionResult
  error : Option String
  deriving DecidableEq, Repr

/-- The chat-history row appended on a completed run (`execution_id` in its
metadata is ambient nondeterminism and is factored out). -/
structure ChatHistoryEntry where
  session_id : String
  role : String
  content : String
  workflow_id : String
  workflow_name : String
  execution_time : String
  deriving DecidableEq, Repr

/-- `n.get("type") == t` for a node dictionary. -/
def isType (t : String) (n : WorkflowNode) : Bool :=
  n.type = some t

/-- Decimal digits of the fractional part `rem/den` (invariant `rem < den`),
truncated at `fuel` digits. -/
def fracDigits : Nat → Nat → Nat → String
  | _, _, 0 => ""
  | rem, den, fuel+1 =>
    if rem = 0 then ""
    else
      let r10 := rem * 10
      toString (r10 / den) ++ fracDigits (r10 % den) den fuel

/-- Python `str()` of a JSON-decoded number modelled as an exact rational:
integers print without a decimal point, terminating decimals print all their
digits (non-terminating expansions, unreachable from the literals in this
code base, are truncated at 30 digits). -/
def pyStr (q : ℚ) : String :=
  let sign := if q < 0 then "-" else ""
  let n := q.num.natAbs
  let d := q.den
  if d = 1 then sign ++ toString n
  else sign ++ toString (n / d) ++ "." ++ fracDigits (n % d) d 30

/-- One lowercase hexadecimal digit. -/
def hexDigit (n : Nat) : Char :=
  if n < 10 then Char.ofNat (48 + n) else Char.ofNat (87 + n)

/-- Four lowercase hexadecimal digits, as emitted by `json.dumps` escapes. -/
def hex4 (n : Nat) : List Char :=
  [hexDigit (n / 4096 % 16), hexDigit (n / 256 % 16), hexDigit (n / 16 % 16),
   hexDigit (n % 16)]

/-- The escape of one character under `json.dumps` with its default
`ensure_ascii=True`: short escapes for quote, backslash and the named control
characters; `\uXXXX` for other characters outside printable ASCII (surrogate
pairs above the basic multilingual plane). -/
def jsonEscapeChar (c : Char) : List Char :=
  if c = '"' then ['\\', '"']
  else if c = '\\' then ['\\', '\\']
  else if c = '\n' then ['\\', 'n']
  else if c = '\t' then ['\\', 't']
  else if c = '\r' then ['\\', 'r']
  else if c = Char.ofNat 8 then ['\\', 'b']
  else if c = Char.ofNat 12 then ['\\', 'f']
  else if c.toNat < 32 ∨ c.toNat > 126 then
    if c.toNat < 65536 then '\\' :: 'u' :: hex4 c.toNat
    else
      let v := c.toNat - 65536
      ('\\' :: 'u' :: hex4 (55296 + v / 1024)) ++ ('\\' :: 'u' :: hex4 (56320 + v % 1024))
  else [c]

/-- A JSON string literal for `s`, escaped as `json.dumps` does. -/
def jsonQuote (s : String) : String :=
  "\"" ++ String.mk (s.data.map jsonEscapeChar).flatten ++ "\""

/-- `json.dumps` on a flat object with string values, with the default
separators `", "` and `": "` and insertion-ordered keys. -/
def json_dumps (pairs : List (String × String)) : String :=
  "\x7b" ++
    String.intercalate ", " (pairs.map (fun p => jsonQuote p.1 ++ ": " ++ jsonQuote p.2)) ++
    "\x7d"

/-- Value of one hexadecimal digit, if any. -/
def parseHexDigit (c : Char) : Option Nat :=
  if 48 ≤ c.toNat ∧ c.toNat ≤ 57 then some (c.toNat - 48)
  else if 97 ≤ c.toNat ∧ c.toNat ≤ 102 then some (c.toNat - 87)
  else if 65 ≤ c.toNat ∧ c.toNat ≤ 70 then some (c.toNat - 55)
  else none

/-- Skip JSON whitespace. -/
def skipWs : List Char → List Char
  | [] => []
  | c :: rest =>
    if c = ' ' ∨ c = '\t' ∨ c = '\n' ∨ c = '\r' then skipWs rest else c :: rest

/-- Parse the body of a JSON string literal (the opening quote already
consumed), decoding escapes, until the closing quote; returns the decoded
string and the remaining input. Fuel bounds the recursion. -/
def parseStrBody : Nat → List Char → List Char → Option (String × List Char)
  | 0, _, _ => none
  | fuel+1, cs, acc =>
    match cs with
    | [] => none
    | '"' :: rest => some (String.mk acc.reverse, rest)
    | '\\' :: esc =>
      match esc with
      | 'n' :: rest => parseStrBody fuel rest ('\n' :: acc)
      | 't' :: rest => parseStrBody fuel rest ('\t' :: acc)
      | 'r' :: rest => parseStrBody fuel rest ('\r' :: acc)
      | 'b' :: rest => parseStrBody fuel rest (Char.ofNat 8 :: acc)
      | 'f' :: rest => parseStrBody fuel rest (Char.ofNat 12 :: acc)
      | '"' :: rest => parseStrBody fuel rest ('"' :: acc)
      | '\\' :: rest => parseStrBody fuel rest ('\\' :: acc)
      | '/' :: rest => parseStrBody fuel rest ('/' :: acc)
      | 'u' :: h1 :: h2 :: h3 :: h4 :: rest =>
        match parseHexDigit h1, parseHexDigit h2, parseHexDigit h3, parseHexDigit h4 with
        | some a, some b, some c, some d =>
          let n := a * 4096 + b * 256 + c * 16 + d
          if 55296 ≤ n ∧ n ≤ 56319 then
            match rest with
            | '\\' :: 'u' :: l1 :: l2 :: l3 :: l4 :: rest₂ =>
              match parseHexDigit l1, parseHexDigit l2, parseHexDigit l3, parseHexDigit l4 with
              | some a₂, some b₂, some c₂, some d₂ =>
                let m := a₂ * 4096 + b₂ * 256 + c₂ * 16 + d₂
                if 56320 ≤ m ∧ m ≤ 57343 then
                  parseStrBody fuel rest₂
                    (Char.ofNat (65536 + (n - 55296) * 1024 + (m - 56320)) :: acc)
                else none
              | _, _, _, _ => none
            | _ => none
          else if 56320 ≤ n ∧ n ≤ 57343 then none
          else parseStrBody fuel rest (Char.ofNat n :: acc)
        | _, _, _, _ => none
      | _ => none
    | c :: rest => parseStrBody fuel rest (c :: acc)

/-- Parse the members of a flat JSON object with string values, after the
opening brace; accepts optional whitespace around tokens. -/
def parseMembers : Nat → List Char → List (String × String) →
    Option (List (String × String))
  | 0, _, _ => none
  | fuel+1, cs, acc =>
    match skipWs cs with
    | '"' :: rest =>
      match parseStrBody (fuel+1) rest [] with
      | some (k, rest₂) =>
        match skipWs rest₂ with
        | ':' :: rest₃ =>
          match skipWs rest₃ with
          | '"' :: rest₄ =>
            match parseStrBody (fuel+1) rest₄ [] with
            | some (v, rest₅) =>
              match skipWs rest₅ with
              | ',' :: rest₆ => parseMembers fuel rest₆ (acc ++ [(k, v)])
              | c :: rest₇ =>
                if c = Char.ofNat 125 ∧ skipWs rest₇ = [] then some (acc ++ [(k, v)])
                else none
              | [] => none
            | none => none
          | _ => none
        | _ => none
      | none => none
    | _ => none

/-- Parse a flat JSON object whose values are all strings (the shape emitted
by the executor's `json` output format); `none` on any other input. -/
def parse_flat_string_object (s : String) : Option (List (String × String)) :=
  match skipWs s.data with
  | c :: rest =>
    if c = Char.ofNat 123 then
      match skipWs rest with
      | c₂ :: rest₂ =>
        if c₂ = Char.ofNat 125 then if skipWs rest₂ = [] then some [] else none
        else parseMembers (s.length + 1) rest []
      | [] => none
    else none
  | [] => none

/-- Lines 931-942 of `Backend/main.py`: the context-accumulation loop over the
`knowledgeBase` nodes. A `text` source contributes its `textContent` only when
that value is truthy; `upload` and `url` contribute fixed placeholders. -/
def collect_context_data : List WorkflowNode → List String
  | [] => []
  | kb_node :: rest =>
    let kb_config := kb_node.data.getD {}
    let tail := collect_context_data rest
    if kb_config.source = some "text" ∧ truthyStr kb_config.textContent then
      kb_config.textContent.getD "" :: tail
    else if kb_config.source = some "upload" then
      "Document content would be processed here" :: tail
    else if kb_config.source = some "url" then
      "URL content would be processed here" :: tail
    else tail

/-- Line 949 of `Backend/main.py`: `llm_config.get("model", "gemini-1.5-flash")`. -/
def llm_model_of (llm_config : ComponentConfig) : String :=
  llm_config.model.getD "gemini-1.5-flash"

/-- Line 950 of `Backend/main.py`: `llm_config.get("temperature", 0.7)`. -/
def llm_temperature_of (llm_config : ComponentConfig) : ℚ :=
  llm_config.temperature.getD (7/10)

/-- Line 969 of `Backend/main.py`: `output_config.get("format", "text")`. -/
def output_format_of (output_config : ComponentConfig) : String :=
  output_config.format.getD "text"

/-- Lines 956-963 of `Backend/main.py`: the simulated generation response
(f-string, byte-for-byte including the indented blank lines). -/
def ai_response_of (query model : String) (temperature : ℚ)
    (combined_context : String) : String :=
  "Based on your query: \"" ++ query ++ "\"\n        \nUsing model: " ++ model ++
  "\nTemperature: " ++ pyStr temperature ++
  "\n        \nContext available: " ++ (if combined_context ≠ "" then "Yes" else "No") ++
  "\n\nThis is a demonstration response. In the full implementation, this would be generated by the configured AI model using the provided context and parameters."

/-- Lines 971-983 of `Backend/main.py`: the output-format transform. -/
def format_response (output_format query ai_response model timestamp : String) :
    String :=
  if output_format = "markdown" then "# AI Response\n\n" ++ ai_response
  else if output_format = "json" then
    json_dumps
      [("query", query), ("response", ai_response), ("model", model),
       ("timestamp", timestamp)]
  else if output_format = "html" then
    "<h1>AI Response</h1><p>" ++ ai_response ++ "</p>"
  else ai_response

/-- `request.session_id or "default"` (line 1005): Python `or` falls back on
both a missing and an empty session id. -/
def session_or_default : Option String → String
  | none => "default"
  | some s => if s = "" then "default" else s

/-- `execute_workflow_enhanced` from `Backend/main.py` (lines 874-1028),
after the workflow has been fetched. Returns the final `ExecutionStatus`
together with the chat-history row appended on success (`none` when nothing
was persisted). The wall-clock `timestamp` serialized into `json` output is a
parameter. -/
def execute_workflow_enhanced (workflow : Workflow) (query : String)
    (session_id : Option String) (timestamp : String) :
    ExecutionStatus × Option ChatHistoryEntry :=
  let nodes := workflow.nodes
  let edges := workflow.edges
  let user_query_nodes := nodes.filter (isType "userQuery")
  let knowledge_base_nodes := nodes.filter (isType "knowledgeBase")
  let llm_engine_nodes := nodes.filter (isType "llmEngine")
  let output_nodes := nodes.filter (isType "output")
  if user_query_nodes.isEmpty then
    ({ status := "failed", progress := 0,
       current_step := "Initializing workflow execution", result := none,
       error := some "No user query component found" }, none)
  else if output_nodes.isEmpty then
    ({ status := "failed", progress := 0,
       current_step := "Initializing workflow execution", result := none,
       error := some "No output component found" }, none)
  else if llm_engine_nodes.isEmpty then
    ({ status := "failed", progress := 0,
       current_step := "Initializing workflow execution", result := none,
       error := some "No LLM engine component found" }, none)
  else
    let user_query_config := (user_query_nodes.headD default).data.getD {}
    let context_data := collect_context_data knowledge_base_nodes
    let llm_config := (llm_engine_nodes.headD default).data.getD {}
    let model := llm_model_of llm_config
    let temperature := llm_temperature_of llm_config
    let combined_context :=
      if context_data.isEmpty then "" else String.intercalate "\n" context_data
    let ai_response := ai_response_of query model temperature combined_context
    let output_config := (output_nodes.headD default).data.getD {}
    let output_format := output_format_of output_config
    let formatted_response :=
      format_response output_format query ai_response model timestamp
    let chat_msg : ChatHistoryEntry :=
      { session_id := session_or_default session_id
        role := "assistant"
        content := formatted_response
        workflow_id := workflow.id
        workflow_name := workflow.name
        execution_time := "2.3s" }
    ({ status := "completed", progress := 100,
       current_step := "Execution completed",
       result := some
         { response := formatted_response
           format := output_format
           execution_time := "2.3s"
           components_used :=
             { user_query := user_query_nodes.length
               knowledge_bases := knowledge_base_nodes.length
               llm_engines := llm_engine_nodes.length
               output := output_nodes.length } }
       error := none }, some chat_msg)

/-- Python slicing `l[start:stop]` on a sequence, with negative indices
counting from the end and out-of-range bounds clamped. -/
def pySlice (l : List Char) (start stop : Int) : List Char :=
  let n : Int := l.length
  let s := if start < 0 then max (n + start) 0 else min start n
  let e := if stop < 0 then max (n + stop) 0 else min stop n
  (l.drop s.toNat).take (e - s).toNat

/-- The `while start < len(text)` loop of `chunk_text` (lines 285-289 of
`Backend/main.py`), with explicit fuel: `none` models a loop that has not
finished within `fuel` iterations. -/
def chunk_text_loop (text : List Char) (chunk_size chunk_overlap : Int) :
    Nat → Int → List (List Char) → Option (List (List Char))
  | 0, _, _ => none
  | fuel+1, start, chunks =>
    if start < (text.length : Int) then
      let stop := start + chunk_size
      let chunk := pySlice text start stop
      chunk_text_loop text chunk_size chunk_overlap fuel (stop - chunk_overlap)
        (chunks ++ [chunk])
    else some chunks

/-- `chunk_text` from `Backend/main.py` (lines 278-291). The fuel
`text.length + 1` is sufficient whenever the loop advances by at least one
character per iteration (i.e. when `chunk_overlap < chunk_size`), so `none`
means the Python loop does not terminate. -/
def chunk_text (text : List Char) (chunk_size chunk_overlap : Int) :
    Option (List (List Char)) :=
  if (text.length : Int) ≤ chunk_size then some [text]
  else chunk_text_loop text chunk_size chunk_overlap (text.length + 1) 0 []

/-- The node-wise contribution to the accumulated context, stated from the
amended claim: a `text` source contributes its literal `textContent` only when
that value is present and non-empty; `upload` and `url` contribute fixed
placeholder strings; everything else contributes nothing. -/
def kb_contribution_spec (n : WorkflowNode) : Option String :=
  let cfg := n.data.getD {}
  match cfg.source with
  | some "text" =>
    match cfg.textContent with
    | some t => if t = "" then none else some t
    | none => none
  | some "upload" => some "Document content would be processed here"
  | some "url" => some "URL content would be processed here"
  | _ => none

/-- Replace, via `f`, the configuration of every `llmEngine` node except the
first in node-array order (an arbitrary modification of the configurations of
the duplicate engines); `seen` records whether the first `llmEngine` node has
already been passed. -/
def mapLlmTail (f : WorkflowNode → Option ComponentConfig) :
    Bool → List WorkflowNode → List WorkflowNode
  | _, [] => []
  | seen, n :: rest =>
    if isType "llmEngine" n then
      (if seen then { n with data := f n } else n) :: mapLlmTail f true rest
    else
      n :: mapLlmTail f seen rest

/-- Replace, via `f`, the configuration of every node after the head. -/
def replaceTail (f : WorkflowNode → Option ComponentConfig) :
    List WorkflowNode → List WorkflowNode
  | [] => []
  | n :: rest => n :: rest.map (fun m => { m with data := f m })

/-- Claim C7: for every component type and every configuration, the returned
`is_valid` flag is true exactly when the returned error list is empty,
independently of the warnings — for both the `main.py` validator and the
`simple_backend.py` validator. -/
theorem validator_is_valid_iff_no_errors :
    (∀ (t : String) (c : ComponentConfig),
      (validate_component t c).is_valid = (validate_component t c).errors.isEmpty)
    ∧ (∀ (t : String) (ks : List String),
      (simple_validate_component t ks).is_valid =
        (simple_validate_component t ks).errors.isEmpty) := by
  constructor
  · intro t c
    rfl
  · intro t ks
    rcases h : simple_config_schema_fields t with _ | fields <;>
      simp [simple_validate_component, h]

/-- Claim C2, counterexample: contrary to the claim, the `main.py` validator
has no unknown-type branch — `validate("bogus", {})` falls through every
type case and returns `is_valid = true` with zero errors and zero warnings,
not `is_valid = false` with one error. -/
theorem validator_unknown_type_counterexample :
    (validate_component "bogus" {}).is_valid = true ∧
    (validate_component "bogus" {}).errors = [] ∧
    (validate_component "bogus" {}).warnings = [] := by
  refine ⟨rfl, rfl, rfl⟩

/-- Claim C2, amended: only the `simple_backend.py` validator rejects unknown
component types — for every type that is not one of its four (lowercase)
registry keys it returns `is_valid = false` with exactly the single error
`"Unknown component type: <type>"` and zero warnings, in particular for
`validate("bogus", {})`; the `main.py` validator instead returns
`is_valid = true` with zero errors and zero warnings on every type other than
its four known kinds. -/
theorem validator_unknown_type_behavior :
    (∀ (t : String) (c : ComponentConfig),
      t ≠ "userQuery" → t ≠ "knowledgeBase" → t ≠ "llmEngine" → t ≠ "output" →
      validate_component t c = { is_valid := true, errors := [], warnings := [] })
    ∧ (∀ (t : String) (ks : List String),
      t ≠ "userquery" → t ≠ "knowledgebase" → t ≠ "llmengine" → t ≠ "output" →
      simple_validate_component t ks =
        { is_valid := false, errors := ["Unknown component type: " ++ t],
          warnings := [], suggestions := [] })
    ∧ simple_validate_component "bogus" [] =
        { is_valid := false, errors := ["Unknown component type: bogus"],
          warnings := [], suggestions := [] } := by
  refine ⟨?_, ?_, rfl⟩
  · intro t c h1 h2 h3 h4
    simp [validate_component, h1, h2, h3, h4]
  · intro t ks h1 h2 h3 h4
    simp [simple_validate_component, simple_config_schema_fields, h1, h2, h3, h4]

/-- Witness for the amended claim C2 at the concrete unknown type
`"mystery"`. -/
theorem validator_unknown_type_behavior_witness :
    validate_component "mystery" {} =
      { is_valid := true, errors := [], warnings := [] } ∧
    simple_validate_component "mystery" [] =
      { is_valid := false, errors := ["Unknown component type: mystery"],
        warnings := [], suggestions := [] } :=
  ⟨validator_unknown_type_behavior.1 "mystery" {}
      (by decide) (by decide) (by decide) (by decide),
   validator_unknown_type_behavior.2.1 "mystery" []
      (by decide) (by decide) (by decide) (by decide)⟩

set_option maxRecDepth 4000 in
/-- Claim C6: `validate("userQuery", config)` reports the error
`"Query is required"` exactly when the `query` field is missing or blank
after stripping, and the single warning exactly when the non-blank query
exceeds 1000 characters; in particular the empty query yields the error and
a 1001-character query yields zero errors and one warning. -/
theorem user_query_validation_rules :
    (∀ c : ComponentConfig,
      (validate_component "userQuery" c).errors =
        (if c.query = none ∨ py_strip (c.query.getD "") = ""
         then ["Query is required"] else []))
    ∧ (∀ c : ComponentConfig,
      (validate_component "userQuery" c).warnings =
        (if ¬ (c.query = none ∨ py_strip (c.query.getD "") = "")
            ∧ (c.query.getD "").length > 1000
         then ["Query is very long, consider shortening"] else []))
    ∧ validate_component "userQuery" { query := some "" } =
        { is_valid := false, errors := ["Query is required"], warnings := [] }
    ∧ (validate_component "userQuery"
        { query := some (String.mk (List.replicate 1001 'x')) }).errors = []
    ∧ (validate_component "userQuery"
        { query := some (String.mk (List.replicate 1001 'x')) }).warnings =
        ["Query is very long, consider shortening"] := by
  have hx : pyIsSpace 'x' = false := by decide
  have hdw : List.dropWhile pyIsSpace (List.replicate 1001 'x') =
      List.replicate 1001 'x' := by
    rw [List.replicate_succ, List.dropWhile_cons, hx]
    simp
  have key : py_strip (String.mk (List.replicate 1001 'x')) =
      String.mk (List.replicate 1001 'x') := by
    show String.mk ((((List.replicate 1001 'x').dropWhile pyIsSpace).reverse.dropWhile
      pyIsSpace).reverse) = String.mk (List.replicate 1001 'x')
    rw [hdw, List.reverse_replicate, hdw, List.reverse_replicate]
  have hlen : (String.mk (List.replicate 1001 'x')).length = 1001 := by
    show (List.replicate 1001 'x').length = 1001
    rw [List.length_replicate]
  have hne : String.mk (List.replicate 1001 'x') ≠ "" := by
    intro h
    have h0 : (String.mk (List.replicate 1001 'x')).length = 0 := by rw [h]; rfl
    rw [hlen] at h0
    exact absurd h0 (by decide)
  have gen : ∀ s : String, s ≠ "" → py_strip s = s → s.length > 1000 →
      validate_component "userQuery" { query := some s } =
        { is_valid := true, errors := [],
          warnings := ["Query is very long, consider shortening"] } := by
    intro s h1 h2 h3
    simp only [validate_component]
    rw [if_pos trivial, if_neg (by simp [h1, h2]), if_pos (by simpa using h3)]
    rfl
  have big := gen (String.mk (List.replicate 1001 'x')) hne key (by omega)
  refine ⟨?_, ?_, by decide, by rw [big], by rw [big]⟩
  · intro c
    by_cases hb : c.query = none ∨ py_strip (c.query.getD "") = ""
    · have hL : (validate_component "userQuery" c).errors = ["Query is required"] := by
        simp only [validate_component]
        rw [if_pos trivial, if_pos hb]
      rw [hL, if_pos hb]
    · by_cases hl : (c.query.getD "").length > 1000
      · have hL : (validate_component "userQuery" c).errors = [] := by
          simp only [validate_component]
          rw [if_pos trivial, if_neg hb, if_pos hl]
        rw [hL, if_neg hb]
      · have hL : (validate_component "userQuery" c).errors = [] := by
          simp only [validate_component]
          rw [if_pos trivial, if_neg hb, if_neg hl]
        rw [hL, if_neg hb]
  · intro c
    by_cases hb : c.query = none ∨ py_strip (c.query.getD "") = ""
    · have hL : (validate_component "userQuery" c).warnings = [] := by
        simp only [validate_component]
        rw [if_pos trivial, if_pos hb]
      rw [hL, if_neg (fun h => h.1 hb)]
    · by_cases hl : (c.query.getD "").length > 1000
      · have hL : (validate_component "userQuery" c).warnings =
            ["Query is very long, consider shortening"] := by
          simp only [validate_component]
          rw [if_pos trivial, if_neg hb, if_pos hl]
        rw [hL, if_pos ⟨hb, hl⟩]
      · have hL : (validate_component "userQuery" c).warnings = [] := by
          simp only [validate_component]
          rw [if_pos trivial, if_neg hb, if_neg hl]
        rw [hL, if_neg (fun h => hl h.2)]

/-- Claim C1: the enhanced executor partitions nodes by declared type and
evaluates exactly three structural checks in order — empty `userQuery` group,
then empty `output` group, then empty `llmEngine` group — short-circuiting at
the first failure; in particular a workflow with no `output` node but at least
one `userQuery` node yields terminal status `"failed"` with error exactly
`"No output component found"` and progress still 0, regardless of the
`llmEngine` group. -/
theorem structural_validation_order (w : Workflow) (q : String)
    (sid : Option String) (ts : String) :
    (w.nodes.filter (isType "userQuery") = [] →
      execute_workflow_enhanced w q sid ts =
        ({ status := "failed", progress := 0,
           current_step := "Initializing workflow execution", result := none,
           error := some "No user query component found" }, none))
    ∧ (w.nodes.filter (isType "userQuery") ≠ [] →
       w.nodes.filter (isType "output") = [] →
      execute_workflow_enhanced w q sid ts =
        ({ status := "failed", progress := 0,
           current_step := "Initializing workflow execution", result := none,
           error := some "No output component found" }, none))
    ∧ (w.nodes.filter (isType "userQuery") ≠ [] →
       w.nodes.filter (isType "output") ≠ [] →
       w.nodes.filter (isType "llmEngine") = [] →
      execute_workflow_enhanced w q sid ts =
        ({ status := "failed", progress := 0,
           current_step := "Initializing workflow execution", result := none,
           error := some "No LLM engine component found" }, none)) := by
  refine ⟨fun h1 => ?_, fun h1 h2 => ?_, fun h1 h2 h3 => ?_⟩
  · simp [execute_workflow_enhanced, h1]
  · simp [execute_workflow_enhanced, h1, h2]
  · simp [execute_workflow_enhanced, h1, h2, h3]

/-- Witness for claim C1 at three concrete workflows: one with no nodes, one
with only a `userQuery` node (the `output` check fires even though the
`llmEngine` group is also empty, witnessing the short-circuit order), and one
with `userQuery` and `output` nodes but no engine. -/
theorem structural_validation_order_witness :
    execute_workflow_enhanced { nodes := [] } "q" none "t" =
      ({ status := "failed", progress := 0,
         current_step := "Initializing workflow execution", result := none,
         error := some "No user query component found" }, none) ∧
    execute_workflow_enhanced { nodes := [{ type := some "userQuery" }] } "q" none "t" =
      ({ status := "failed", progress := 0,
         current_step := "Initializing workflow execution", result := none,
         error := some "No output component found" }, none) ∧
    execute_workflow_enhanced
        { nodes := [{ type := some "userQuery" }, { type := some "output" }] } "q" none "t" =
      ({ status := "failed", progress := 0,
         current_step := "Initializing workflow execution", result := none,
         error := some "No LLM engine component found" }, none) :=
  ⟨(structural_validation_order { nodes := [] } "q" none "t").1 (by decide),
   (structural_validation_order { nodes := [{ type := some "userQuery" }] }
      "q" none "t").2.1 (by decide) (by decide),
   (structural_validation_order
      { nodes := [{ type := some "userQuery" }, { type := some "output" }] }
      "q" none "t").2.2 (by decide) (by decide) (by decide)⟩

/-- Claim C8: the executor's entire observable outcome — execution status and
persisted chat entry alike — is independent of the workflow's edge list. -/
theorem executor_ignores_edges (w : Workflow) (edges' : List WorkflowEdge)
    (q : String) (sid : Option String) (ts : String) :
    execute_workflow_enhanced { w with edges := edges' } q sid ts =
      execute_workflow_enhanced w q sid ts := rfl

/-- Claim C10: when structural validation fails (missing `userQuery`,
`output`, or `llmEngine` node), the executor persists nothing — no chat
history entry is appended — and the returned status carries `result = none`,
progress 0 and status `"failed"`. -/
theorem failed_validation_no_persistence (w : Workflow) (q : String)
    (sid : Option String) (ts : String)
    (h : w.nodes.filter (isType "userQuery") = [] ∨
         w.nodes.filter (isType "output") = [] ∨
         w.nodes.filter (isType "llmEngine") = []) :
    (execute_workflow_enhanced w q sid ts).2 = none ∧
    (execute_workflow_enhanced w q sid ts).1.result = none ∧
    (execute_workflow_enhanced w q sid ts).1.progress = 0 ∧
    (execute_workflow_enhanced w q sid ts).1.status = "failed" := by
  by_cases h1 : (w.nodes.filter (isType "userQuery")).isEmpty
  · simp [execute_workflow_enhanced, h1]
  · by_cases h2 : (w.nodes.filter (isType "output")).isEmpty
    · simp [execute_workflow_enhanced, h1, h2]
    · by_cases h3 : (w.nodes.filter (isType "llmEngine")).isEmpty
      · simp [execute_workflow_enhanced, h1, h2, h3]
      · exfalso
        rcases h with h | h | h <;> simp [h] at h1 h2 h3

/-- Witness for claim C10 at the empty workflow. -/
theorem failed_validation_no_persistence_witness :
    (execute_workflow_enhanced { nodes := [] } "q" none "t").2 = none ∧
    (execute_workflow_enhanced { nodes := [] } "q" none "t").1.result = none ∧
    (execute_workflow_enhanced { nodes := [] } "q" none "t").1.progress = 0 ∧
    (execute_workflow_enhanced { nodes := [] } "q" none "t").1.status = "failed" :=
  failed_validation_no_persistence { nodes := [] } "q" none "t" (Or.inl rfl)

/-- Claim C4, counterexample: a `knowledgeBase` node with source `"text"` and
an empty `textContent` does NOT contribute its literal (empty) text — the
executor's truthiness guard skips it — so alongside a node with text `"A"`
the accumulated contributions are `["A"]`, not `["", "A"]`, and the joined
context is `"A"` rather than `"\nA"`. -/
theorem knowledge_base_empty_text_counterexample :
    collect_context_data
        [{ type := some "knowledgeBase",
           data := some { source := some "text", textContent := some "" } },
         { type := some "knowledgeBase",
           data := some { source := some "text", textContent := some "A" } }] = ["A"] ∧
    (["A"] : List String) ≠ ["", "A"] ∧
    String.intercalate "\n"
        (collect_context_data
          [{ type := some "knowledgeBase",
             data := some { source := some "text", textContent := some "" } },
           { type := some "knowledgeBase",
             data := some { source := some "text", textContent := some "A" } }]) = "A" := by
  refine ⟨by decide, by decide, by decide⟩

/-- Claim C4, amended: the executor visits every `knowledgeBase` node in
node-array order; a node with source `"text"` contributes its literal
`textContent` only when that value is present and non-empty (and otherwise
contributes nothing), nodes with source `"upload"` or `"url"` contribute a
fixed placeholder string, and all contributions are joined by a single
newline; in particular two `text` nodes with distinct non-empty `textContent`
values both appear verbatim, in node order, in the accumulated context. -/
theorem knowledge_base_context_accumulation :
    (∀ nodes : List WorkflowNode,
      collect_context_data nodes = nodes.filterMap kb_contribution_spec)
    ∧ (∀ t₁ t₂ : String, t₁ ≠ "" → t₂ ≠ "" →
      collect_context_data
          [{ type := some "knowledgeBase",
             data := some { source := some "text", textContent := some t₁ } },
           { type := some "knowledgeBase",
             data := some { source := some "text", textContent := some t₂ } }] = [t₁, t₂]
      ∧ String.intercalate "\n" [t₁, t₂] = t₁ ++ "\n" ++ t₂) := by
  constructor
  · intro nodes
    induction nodes with
    | nil => rfl
    | cons n rest ih =>
      rcases hsrc : (n.data.getD {}).source with _ | src
      · simp [collect_context_data, kb_contribution_spec, hsrc, ih]
      · by_cases h1 : src = "text"
        · subst h1
          rcases htc : (n.data.getD {}).textContent with _ | t
          · simp [collect_context_data, kb_contribution_spec, hsrc, htc, truthyStr, ih]
          · by_cases ht : t = "" <;>
              simp [collect_context_data, kb_contribution_spec, hsrc, htc, truthyStr,
                ht, ih]
        · by_cases h2 : src = "upload"
          · subst h2
            simp [collect_context_data, kb_contribution_spec, hsrc, truthyStr, ih]
          · by_cases h3 : src = "url"
            · subst h3
              simp [collect_context_data, kb_contribution_spec, hsrc, truthyStr, ih]
            · simp [collect_context_data, kb_contribution_spec, hsrc, truthyStr,
                h1, h2, h3, ih]
  · intro t₁ t₂ h1 h2
    constructor
    · simp [collect_context_data, truthyStr, h1, h2]
    · rfl

/-- Witness for the amended claim C4 at the concrete texts `"A"` and `"B"`. -/
theorem knowledge_base_context_accumulation_witness :
    collect_context_data
        [{ type := some "knowledgeBase",
           data := some { source := some "text", textContent := some "A" } },
         { type := some "knowledgeBase",
           data := some { source := some "text", textContent := some "B" } }] = ["A", "B"]
    ∧ String.intercalate "\n" ["A", "B"] = "A" ++ "\n" ++ "B" :=
  knowledge_base_context_accumulation.2 "A" "B" (by decide) (by decide)

lemma isType_set_data (t : String) (n : WorkflowNode) (d : Option ComponentConfig) :
    isType t { n with data := d } = isType t n := rfl

lemma mapLlmTail_filter_ne (f : WorkflowNode → Option ComponentConfig)
    (t : String) (ht : t ≠ "llmEngine") :
    ∀ (seen : Bool) (l : List WorkflowNode),
      (mapLlmTail f seen l).filter (isType t) = l.filter (isType t) := by
  intro seen l
  induction l generalizing seen with
  | nil => rfl
  | cons n rest ih =>
    by_cases h : isType "llmEngine" n
    · have hnt : isType t n = false := by
        simp only [isType, decide_eq_true_eq] at h
        simp [isType, h, Option.some.injEq]
        intro hc
        exact ht hc.symm
      by_cases hseen : seen <;>
        simp [mapLlmTail, h, hseen, List.filter_cons, isType_set_data, hnt, ih]
    · simp [mapLlmTail, h, List.filter_cons, ih]

lemma mapLlmTail_filter_llm_true (f : WorkflowNode → Option ComponentConfig) :
    ∀ l : List WorkflowNode,
      (mapLlmTail f true l).filter (isType "llmEngine") =
        (l.filter (isType "llmEngine")).map (fun m => { m with data := f m }) := by
  intro l
  induction l with
  | nil => rfl
  | cons n rest ih =>
    by_cases h : isType "llmEngine" n
    · simp [mapLlmTail, h, List.filter_cons, isType_set_data, ih]
    · simp [mapLlmTail, h, List.filter_cons, ih]

lemma mapLlmTail_filter_llm_false (f : WorkflowNode → Option ComponentConfig) :
    ∀ l : List WorkflowNode,
      (mapLlmTail f false l).filter (isType "llmEngine") =
        replaceTail f (l.filter (isType "llmEngine")) := by
  intro l
  induction l with
  | nil => rfl
  | cons n rest ih =>
    by_cases h : isType "llmEngine" n
    · simp [mapLlmTail, h, List.filter_cons, replaceTail, mapLlmTail_filter_llm_true]
    · simp [mapLlmTail, h, List.filter_cons, ih]

lemma replaceTail_isEmpty (f : WorkflowNode → Option ComponentConfig)
    (l : List WorkflowNode) : (replaceTail f l).isEmpty = l.isEmpty := by
  cases l <;> rfl

lemma replaceTail_length (f : WorkflowNode → Option ComponentConfig)
    (l : List WorkflowNode) : (replaceTail f l).length = l.length := by
  cases l <;> simp [replaceTail]

lemma replaceTail_headD (f : WorkflowNode → Option ComponentConfig)
    (l : List WorkflowNode) (d : WorkflowNode) :
    (replaceTail f l).headD d = l.headD d := by
  cases l <;> rfl

/-- Claim C5: the generation step reads configuration only from the first
node of the `llmEngine` group — modifying the configuration of every later
`llmEngine` node (by an arbitrary function) leaves the whole observable run
unchanged — and its `model` and `temperature` fields default to
`"gemini-1.5-flash"` and `0.7` when absent. -/
theorem llm_engine_first_match_only :
    (∀ (f : WorkflowNode → Option ComponentConfig) (w : Workflow) (q : String)
       (sid : Option String) (ts : String),
      execute_workflow_enhanced { w with nodes := mapLlmTail f false w.nodes } q sid ts =
        execute_workflow_enhanced w q sid ts)
    ∧ (∀ c : ComponentConfig, c.model = none → llm_model_of c = "gemini-1.5-flash")
    ∧ (∀ c : ComponentConfig, c.temperature = none → llm_temperature_of c = 7/10) := by
  refine ⟨?_, fun c h => by simp [llm_model_of, h], fun c h => by simp [llm_temperature_of, h]⟩
  intro f w q sid ts
  simp only [execute_workflow_enhanced]
  rw [mapLlmTail_filter_ne f "userQuery" (by decide),
      mapLlmTail_filter_ne f "knowledgeBase" (by decide),
      mapLlmTail_filter_ne f "output" (by decide),
      mapLlmTail_filter_llm_false f,
      replaceTail_isEmpty, replaceTail_length, replaceTail_headD]

/-- Witness for claim C5: replacing the second engine's configuration leaves
a concrete two-engine run unchanged, and the defaults fire on the empty
configuration. -/
theorem llm_engine_first_match_only_witness :
    execute_workflow_enhanced
        { id := "", name := "",
          nodes := mapLlmTail (fun _ => some { model := some "changed" }) false
            [{ type := some "userQuery" },
             { type := some "llmEngine", data := some { model := some "a" } },
             { type := some "llmEngine", data := some { model := some "b" } },
             { type := some "output" }],
          edges := [] } "q" none "t" =
      execute_workflow_enhanced
        { id := "", name := "",
          nodes := [{ type := some "userQuery" },
                    { type := some "llmEngine", data := some { model := some "a" } },
                    { type := some "llmEngine", data := some { model := some "b" } },
                    { type := some "output" }],
          edges := [] } "q" none "t"
    ∧ llm_model_of {} = "gemini-1.5-flash"
    ∧ llm_temperature_of {} = 7/10 :=
  ⟨llm_engine_first_match_only.1 (fun _ => some { model := some "changed" })
      { id := "", name := "",
        nodes := [{ type := some "userQuery" },
                  { type := some "llmEngine", data := some { model := some "a" } },
                  { type := some "llmEngine", data := some { model := some "b" } },
                  { type := some "output" }],
        edges := [] } "q" none "t",
   llm_engine_first_match_only.2.1 {} rfl,
   llm_engine_first_match_only.2.2 {} rfl⟩

/-- The workflow of the claim's concrete instance:
`[{type:userQuery}, {type:llmEngine,data:{model:"m1"}}, {type:output,data:{format:"json"}}]`. -/
def demo_json_workflow : Workflow :=
  { id := "wf-1", name := "demo",
    nodes :=
      [ { type := some "userQuery" },
        { type := some "llmEngine", data := some { model := some "m1" } },
        { type := some "output", data := some { format := some "json" } } ],
    edges := [] }

set_option maxRecDepth 20000 in
/-- Claim C3: on a structurally valid workflow the executor reads the first
output node's `format` (default `"text"`) and applies a pure text transform
(`markdown` prefixes a heading, `json` serializes an object with fields
`query`, `response`, `model`, `timestamp`, `html` wraps in minimal markup,
anything else passes the response through); on the concrete workflow
`[userQuery, llmEngine{model:"m1"}, output{format:"json"}]` with query
`"hi"` the run completes with progress 100, `result.format = "json"` and a
`result.response` that parses as JSON whose `query` field is `"hi"`. -/
theorem json_output_formatting :
    (∀ ts : String,
      (execute_workflow_enhanced demo_json_workflow "hi" none ts).1.status = "completed" ∧
      (execute_workflow_enhanced demo_json_workflow "hi" none ts).1.progress = 100 ∧
      ((execute_workflow_enhanced demo_json_workflow "hi" none ts).1.result.map
        (fun r => r.format)) = some "json" ∧
      ((execute_workflow_enhanced demo_json_workflow "hi" none ts).1.result.map
        (fun r => r.response)) =
        some (json_dumps
          [("query", "hi"),
           ("response", ai_response_of "hi" "m1" (7/10) ""),
           ("model", "m1"), ("timestamp", ts)]))
    ∧ ((((execute_workflow_enhanced demo_json_workflow "hi" none
          "2025-01-01T00:00:00").1.result.map (fun r => r.response)).bind
            parse_flat_string_object).bind (fun l => l.lookup "query")) = some "hi"
    ∧ (∀ q a m t : String,
        format_response "markdown" q a m t = "# AI Response\n\n" ++ a ∧
        format_response "json" q a m t =
          json_dumps [("query", q), ("response", a), ("model", m), ("timestamp", t)] ∧
        format_response "html" q a m t = "<h1>AI Response</h1><p>" ++ a ++ "</p>" ∧
        (∀ f : String, f ≠ "markdown" → f ≠ "json" → f ≠ "html" →
          format_response f q a m t = a))
    ∧ (∀ c : ComponentConfig, c.format = none → output_format_of c = "text") := by
  have h710 : (7/10 : ℚ) = ⟨7, 10, by decide, by decide⟩ := by
    rw [Rat.mk'_eq_divInt, Rat.divInt_eq_div]
    norm_num
  have hpy : pyStr (7/10) = "0.7" := by rw [h710]; decide
  have hair : ai_response_of "hi" "m1" (7/10) "" =
      "Based on your query: \"hi\"\n        \nUsing model: m1\nTemperature: 0.7\n        \nContext available: No\n\nThis is a demonstration response. In the full implementation, this would be generated by the configured AI model using the provided context and parameters." := by
    simp only [ai_response_of, hpy]
    decide
  refine ⟨fun ts => ⟨rfl, rfl, rfl, rfl⟩, ?_, ?_, fun c h => by simp [output_format_of, h]⟩
  · show (((some (json_dumps
        [("query", "hi"),
         ("response", ai_response_of "hi" "m1" (7/10) ""),
         ("model", "m1"),
         ("timestamp", "2025-01-01T00:00:00")])).bind
          parse_flat_string_object).bind (fun l => l.lookup "query")) = some "hi"
    rw [hair]
    decide
  · intro q a m t
    refine ⟨rfl, rfl, rfl, fun f h1 h2 h3 => ?_⟩
    simp [format_response, h1, h2, h3]

/-- Witness for claim C3's conditional clauses: an unknown format passes the
response through unchanged, and a configuration without a `format` key
defaults to `"text"`. -/
theorem json_output_formatting_witness :
    format_response "text" "q" "a" "m" "t" = "a" ∧
    output_format_of {} = "text" :=
  ⟨(json_output_formatting.2.2.1 "q" "a" "m" "t").2.2.2 "text"
      (by decide) (by decide) (by decide),
   json_output_formatting.2.2.2 {} rfl⟩

lemma pySlice_length_le (l : List Char) (start size : Int)
    (hs : 0 ≤ start) (hsize : 0 ≤ size) :
    ((pySlice l start (start + size)).length : Int) ≤ size := by
  simp only [pySlice]
  rw [if_neg (not_lt.mpr hs), if_neg (by omega : ¬ start + size < 0)]
  simp only [List.length_take, List.length_drop]
  omega

lemma chunk_text_loop_total (text : List Char) (size overlap : Int)
    (hsize : 0 < size) (hov : overlap < size) :
    ∀ (fuel : Nat) (start : Int) (chunks : List (List Char)),
      0 ≤ start → (text.length : Int) - start < fuel → 0 < fuel →
      ∃ more,
        chunk_text_loop text size overlap fuel start chunks = some (chunks ++ more) ∧
        (start < (text.length : Int) → more ≠ []) ∧
        ∀ c ∈ more, (c.length : Int) ≤ size := by
  intro fuel
  induction fuel with
  | zero =>
    intro start chunks _ _ h2
    omega
  | succ fuel ih =>
    intro start chunks h0 h1 _
    by_cases hlt : start < (text.length : Int)
    · have hfuel : 0 < fuel := by omega
      obtain ⟨more, heq, _, hlen⟩ :=
        ih (start + size - overlap) (chunks ++ [pySlice text start (start + size)])
          (by omega) (by omega) hfuel
      refine ⟨pySlice text start (start + size) :: more, ?_, fun _ => by simp, ?_⟩
      · simp only [chunk_text_loop, if_pos hlt]
        rw [heq]
        simp
      · intro c hc
        rcases List.mem_cons.mp hc with hc | hc
        · subst hc
          exact pySlice_length_le text start size h0 (le_of_lt hsize)
        · exact hlen c hc
    · refine ⟨[], ?_, fun h => absurd h hlt, by simp⟩
      simp [chunk_text_loop, if_neg hlt]

lemma chunk_text_loop_stuck (text : List Char) (size overlap : Int)
    (hov : size ≤ overlap) :
    ∀ (fuel : Nat) (start : Int) (chunks : List (List Char)),
      start < (text.length : Int) →
      chunk_text_loop text size overlap fuel start chunks = none := by
  intro fuel
  induction fuel with
  | zero => intro start chunks _; rfl
  | succ fuel ih =>
    intro start chunks h
    simp only [chunk_text_loop, if_pos h]
    exact ih _ _ (by omega)

/-- Claim C9: for every text, every `chunk_size > 0` and every
`chunk_overlap < chunk_size`, `chunk_text` terminates with a non-empty list
of chunks each of length at most `chunk_size`; each loop iteration advances
the start index by exactly `chunk_size - chunk_overlap`, which is why the
precondition is necessary — when `chunk_overlap ≥ chunk_size` (and the text
is longer than one chunk) the loop never terminates, at any fuel. -/
theorem chunk_text_termination_and_bounds :
    (∀ (text : List Char) (size overlap : Int), 0 < size → overlap < size →
      ∃ chunks, chunk_text text size overlap = some chunks ∧ chunks ≠ [] ∧
        ∀ c ∈ chunks, (c.length : Int) ≤ size)
    ∧ (∀ (text : List Char) (size overlap : Int) (fuel : Nat) (start : Int)
        (chunks : List (List Char)), start < (text.length : Int) →
        chunk_text_loop text size overlap (fuel+1) start chunks =
          chunk_text_loop text size overlap fuel (start + (size - overlap))
            (chunks ++ [pySlice text start (start + size)]))
    ∧ (∀ (text : List Char) (size overlap : Int), 0 < size → size ≤ overlap →
        size < (text.length : Int) → chunk_text text size overlap = none) := by
  refine ⟨?_, ?_, ?_⟩
  · intro text size overlap hsize hov
    by_cases hle : (text.length : Int) ≤ size
    · refine ⟨[text], by simp [chunk_text, if_pos hle], by simp, ?_⟩
      intro c hc
      rcases List.mem_singleton.mp hc with rfl
      exact hle
    · obtain ⟨more, heq, hne, hlen⟩ :=
        chunk_text_loop_total text size overlap hsize hov (text.length + 1) 0 []
          le_rfl (by omega) (by omega)
      refine ⟨more, ?_, hne (by omega), hlen⟩
      rw [chunk_text, if_neg hle]
      simpa using heq
  · intro text size overlap fuel start chunks h
    simp only [chunk_text_loop, if_pos h]
    rw [add_sub_assoc]
  · intro text size overlap hsize hov hlen
    rw [chunk_text, if_neg (by omega)]
    exact chunk_text_loop_stuck text size overlap hov _ 0 [] (by omega)

/-- Witness for claim C9 on the eight-character text `"abcdefgh"` with chunk
size 3: overlap 1 terminates within bounds, one loop step advances the start
by `3 - 1`, and overlap 3 diverges. -/
theorem chunk_text_termination_and_bounds_witness :
    (∃ chunks, chunk_text "abcdefgh".data 3 1 = some chunks ∧ chunks ≠ [] ∧
      ∀ c ∈ chunks, (c.length : Int) ≤ 3)
    ∧ chunk_text_loop "abcdefgh".data 3 1 1 0 [] =
        chunk_text_loop "abcdefgh".data 3 1 0 (0 + (3 - 1)) ([] ++ [pySlice "abcdefgh".data 0 (0 + 3)])
    ∧ chunk_text "abcdefgh".data 3 3 = none :=
  ⟨chunk_text_termination_and_bounds.1 "abcdefgh".data 3 1 (by decide) (by decide),
   chunk_text_termination_and_bounds.2.1 "abcdefgh".data 3 1 0 0 [] (by decide),
   chunk_text_termination_and_bounds.2.2 "abcdefgh".data 3 3 (by decide) (by decide)
     (by decide)⟩
